import Mathlib

/-
Verification of the libunftp session engine against its specification.

The definitions below are a shallow embedding of the Rust sources:
  src/server/ftpserver.rs          (event loop, auth gate, error and
                                    internal-message handling, PROXY PASV)
  src/server/controlchan/error.rs  (ControlChanError kinds, From<ParseError>)
  src/server/controlchan/commands/abor.rs
  src/server/commands/pwd.rs
  src/storage/error.rs             (storage ErrorKind)
Types of the repository that are not under src/ (the Reply/ReplyCode model,
the Session struct, the PROXY ConnectionTuple) are modelled from the spec;
their doc comments say so explicitly.
-/

namespace LibUnftp

/-- Reply codes used by the embedded fragment of the server.  The constructor
names are the ones the Rust sources refer to (ReplyCode::...). -/
inductive ReplyCode where
  | ServiceReady
  | FileStatusOkay
  | CommandOkay
  | CommandOkayNotImplemented
  | ClosingDataConnection
  | EnteringPassiveMode
  | UserLoggedIn
  | FileActionOkay
  | DirCreated
  | ClosingControlConnection
  | ConnectionClosed
  | TransientFileError
  | LocalError
  | OutOfSpace
  | CommandSyntaxError
  | ParameterSyntaxError
  | NotLoggedIn
  | FileError
  | PageTypeUnknown
  | ExceededStorageAllocation
  | BadFileName
  deriving DecidableEq, Repr

/-- Modelled from the spec: the numeric value of each reply code.  The file
defining ReplyCode (the Reply and ReplyCode model, spec section 2 component C1)
is not under src/; the numbers come from the spec's error table (section 7),
the per-verb semantics (section 4.1), and the doc comments of
src/storage/error.rs, which state the numeric code of every storage error. -/
def ReplyCode.code : ReplyCode → Nat
  | .ServiceReady => 220
  | .FileStatusOkay => 150
  | .CommandOkay => 200
  | .CommandOkayNotImplemented => 202
  | .ClosingDataConnection => 226
  | .EnteringPassiveMode => 227
  | .UserLoggedIn => 230
  | .FileActionOkay => 250
  | .DirCreated => 257
  | .ClosingControlConnection => 421
  | .ConnectionClosed => 426
  | .TransientFileError => 450
  | .LocalError => 451
  | .OutOfSpace => 452
  | .CommandSyntaxError => 500
  | .ParameterSyntaxError => 501
  | .NotLoggedIn => 530
  | .FileError => 550
  | .PageTypeUnknown => 551
  | .ExceededStorageAllocation => 552
  | .BadFileName => 553

/-- Modelled from the spec: a server reply is either a code with a message
(Reply::CodeAndMsg, built by Reply::new / Reply::new_with_string) or the
suppressed sentinel (Reply::none()).  The multi-line form is not used by any
embedded code path and is omitted. -/
inductive Reply where
  | codeAndMsg (code : ReplyCode) (msg : String)
  | none
  deriving DecidableEq, Repr

/-- The numeric code carried by a reply, if any. -/
def Reply.codeNum : Reply → Option Nat
  | .codeAndMsg c _ => Option.some c.code
  | .none => Option.none

/-- Storage error kinds, from src/storage/error.rs (enum ErrorKind). -/
inductive ErrorKind where
  | TransientFileNotAvailable
  | PermanentFileNotAvailable
  | PermissionDenied
  | LocalError
  | PageTypeUnknown
  | InsufficientStorageSpaceError
  | ExceededStorageAllocationError
  | FileNameNotAllowedError
  deriving DecidableEq, Repr

/-- Control channel error kinds, from src/server/controlchan/error.rs
(enum ControlChanErrorKind). -/
inductive ControlChanErrorKind where
  | IOError
  | ParseError
  | InternalServerError
  | AuthenticationError
  | InternalMsgError
  | UTF8Error
  | UnknownCommand (command : String)
  | InvalidCommand
  | ControlChannelTimeout
  deriving DecidableEq, Repr

/-- Parse error kinds named by the From(ParseError) impl in
src/server/controlchan/error.rs: UnknownCommand, InvalidUTF8, InvalidCommand,
InvalidToken.  (parse_error.rs itself is not under src/; any further variant
falls into the wildcard arm of that impl, mapping to InvalidCommand, and is
not modelled.) -/
inductive ParseErrorKind where
  | UnknownCommand (command : String)
  | InvalidUTF8
  | InvalidCommand
  | InvalidToken
  deriving DecidableEq, Repr

/-- The From(ParseError) conversion of src/server/controlchan/error.rs,
lines 97-110. -/
def from_parse_error : ParseErrorKind → ControlChanErrorKind
  | .UnknownCommand command => .UnknownCommand command
  | .InvalidUTF8 => .UTF8Error
  | .InvalidCommand => .InvalidCommand
  | .InvalidToken => .UTF8Error

/-- Server::handle_control_channel_error, src/server/ftpserver.rs lines
833-845 (the metrics side effect is omitted; it does not affect the reply). -/
def handle_control_channel_error : ControlChanErrorKind → Reply
  | .UnknownCommand _ => Reply.codeAndMsg .CommandSyntaxError "Command not implemented"
  | .UTF8Error => Reply.codeAndMsg .CommandSyntaxError "Invalid UTF8 in command"
  | .InvalidCommand => Reply.codeAndMsg .ParameterSyntaxError "Invalid Parameter"
  | .ControlChannelTimeout => Reply.codeAndMsg .ClosingControlConnection "Session timed out. Closing control connection"
  | _ => Reply.codeAndMsg .LocalError "Unknown internal server error, please try again later"

/-- The close decision of the event loop's error branch, src/server/ftpserver.rs
lines 610-626: the connection is closed exactly when the produced reply matches
Reply::CodeAndMsg with code ClosingControlConnection. -/
def closes_connection : Reply → Bool
  | .codeAndMsg .ClosingControlConnection _ => true
  | _ => false

/-- Session states, per spec section 4.6 (session.rs is not under src/;
ftpserver.rs uses SessionState::WaitCmd directly). -/
inductive SessionState where
  | Start
  | WaitPass (username : String)
  | WaitCmd
  deriving DecidableEq, Repr

/-- An IP address, either four IPv4 octets or an IPv6 address (whose payload
no embedded code path inspects). -/
inductive IpAddr where
  | v4 (o0 o1 o2 o3 : Nat)
  | v6
  deriving DecidableEq, Repr

/-- True exactly on IPv4 addresses. -/
def IpAddr.isV4 : IpAddr → Bool
  | .v4 _ _ _ _ => true
  | .v6 => false

/-- Modelled from the spec: the PROXY protocol connection tuple
(src_ip, src_port, dst_ip, dst_port) of spec section 4.3; ftpserver.rs reads
the fields from_ip, from_port and to_port of it. -/
structure ConnectionTuple where
  from_ip : IpAddr
  from_port : Nat
  to_ip : IpAddr
  to_port : Nat
  deriving DecidableEq, Repr

/-- Modelled from the spec: the per-connection Session (spec section 3;
session.rs is not under src/).  Only the fields the embedded code paths touch
are modelled.  Channel senders carry no data in the embedding: an
Option Unit records presence, matching how ftpserver.rs and abor.rs only
test/take/clone them. -/
structure Session where
  state : SessionState
  cwd : String
  start_pos : Nat
  cmd_tls : Bool
  data_abort_tx : Option Unit
  control_msg_tx : Option Unit
  control_connection_info : Option ConnectionTuple
  deriving DecidableEq, Repr

/-- Internal messages, as consumed by Server::handle_internal_msg
(src/server/ftpserver.rs lines 772-831).  chancomms.rs is not under src/;
the payloads that handle_internal_msg ignores with `..` are omitted. -/
inductive InternalMsg where
  | NotFound
  | PermissionDenied
  | SendingData
  | SendData
  | WriteFailed
  | ConnectionReset
  | WrittenData
  | DataConnectionClosedAfterStor
  | UnknownRetrieveError
  | DirectorySuccessfullyListed
  | CwdSuccess
  | DelSuccess
  | DelFail
  | Quit
  | SecureControlChannel
  | PlaintextControlChannel
  | MkdirSuccess (path : String)
  | MkdirFail
  | AuthSuccess
  | AuthFailed
  | StorageError (kind : ErrorKind)
  | CommandChannelReply (code : ReplyCode) (message : String)
  deriving DecidableEq, Repr

/-- Server::handle_internal_msg, src/server/ftpserver.rs lines 772-831.
Every arm of the source returns Ok, so the Result wrapper is dropped;
mutation of the mutex-guarded session becomes explicit state passing. -/
def handle_internal_msg (msg : InternalMsg) (session : Session) : Reply × Session :=
  match msg with
  | .NotFound => (Reply.codeAndMsg .FileError "File not found", session)
  | .PermissionDenied => (Reply.codeAndMsg .FileError "Permision denied", session)
  | .SendingData => (Reply.codeAndMsg .FileStatusOkay "Sending Data", session)
  | .SendData =>
      (Reply.codeAndMsg .ClosingDataConnection "Successfully sent", { session with start_pos := 0 })
  | .WriteFailed => (Reply.codeAndMsg .TransientFileError "Failed to write file", session)
  | .ConnectionReset => (Reply.codeAndMsg .ConnectionClosed "Datachannel unexpectedly closed", session)
  | .WrittenData =>
      (Reply.codeAndMsg .ClosingDataConnection "File successfully written", { session with start_pos := 0 })
  | .DataConnectionClosedAfterStor => (Reply.codeAndMsg .FileActionOkay "unFTP holds your data for you", session)
  | .UnknownRetrieveError => (Reply.codeAndMsg .TransientFileError "Unknown Error", session)
  | .DirectorySuccessfullyListed => (Reply.codeAndMsg .ClosingDataConnection "Listed the directory", session)
  | .CwdSuccess => (Reply.codeAndMsg .FileActionOkay "Successfully cwd", session)
  | .DelSuccess => (Reply.codeAndMsg .FileActionOkay "File successfully removed", session)
  | .DelFail => (Reply.codeAndMsg .TransientFileError "Failed to delete the file", session)
  | .Quit => (Reply.codeAndMsg .ClosingControlConnection "Bye!", session)
  | .SecureControlChannel => (Reply.none, { session with cmd_tls := true })
  | .PlaintextControlChannel => (Reply.none, { session with cmd_tls := false })
  | .MkdirSuccess path => (Reply.codeAndMsg .DirCreated path, session)
  | .MkdirFail => (Reply.codeAndMsg .FileError "Failed to create directory", session)
  | .AuthSuccess =>
      (Reply.codeAndMsg .UserLoggedIn "User logged in, proceed", { session with state := .WaitCmd })
  | .AuthFailed => (Reply.codeAndMsg .NotLoggedIn "Authentication failed", session)
  | .StorageError kind =>
      match kind with
      | .ExceededStorageAllocationError => (Reply.codeAndMsg .ExceededStorageAllocation "Exceeded storage allocation", session)
      | .FileNameNotAllowedError => (Reply.codeAndMsg .BadFileName "File name not allowed", session)
      | .InsufficientStorageSpaceError => (Reply.codeAndMsg .OutOfSpace "Insufficient storage space", session)
      | .LocalError => (Reply.codeAndMsg .LocalError "Local error", session)
      | .PageTypeUnknown => (Reply.codeAndMsg .PageTypeUnknown "Page type unknown", session)
      | .TransientFileNotAvailable => (Reply.codeAndMsg .TransientFileError "File not found", session)
      | .PermanentFileNotAvailable => (Reply.codeAndMsg .FileError "File not found", session)
      | .PermissionDenied => (Reply.codeAndMsg .FileError "Permission denied", session)
  | .CommandChannelReply code message => (Reply.codeAndMsg code message, session)

/-- Abor::handle, src/server/controlchan/commands/abor.rs lines 32-45.
Result: the reply, the session after the handler (Option.take sets
data_abort_tx to None), and whether an abort signal was sent on the taken
sender (the spawned send of the source). -/
def abor_handle (session : Session) : Reply × Session × Bool :=
  match session.data_abort_tx with
  | Option.some _ =>
      (Reply.codeAndMsg .ClosingDataConnection "Closed data channel",
       { session with data_abort_tx := Option.none }, true)
  | Option.none =>
      (Reply.codeAndMsg .ClosingDataConnection "Data channel already closed", session, false)

/-- Pwd::execute, src/server/commands/pwd.rs lines 23-31: the cwd is wrapped
in double quotes with no escaping (the source carries a TODO admitting the
missing escaping). -/
def pwd_execute (session : Session) : Reply :=
  Reply.codeAndMsg .DirCreated ("\"" ++ session.cwd ++ "\"")

/-- The spec's words for PWD (section 4.1): every double-quote character
embedded in the path is doubled. -/
def escapeDoubleQuotes (p : String) : String :=
  String.mk (p.data.foldr (fun c acc => if c = '\"' then c :: c :: acc else c :: acc) [])

/-- The spec's words for the PWD reply: 257 with the quoted, escaped cwd.
This definition follows the spec, to be compared with pwd_execute. -/
def pwdReplySpec (cwd : String) : Reply :=
  Reply.codeAndMsg .DirCreated ("\"" ++ escapeDoubleQuotes cwd ++ "\"")

/-- The FTP command variants, from the dispatch match of Server::handle_command
(src/server/ftpserver.rs lines 729-767).  command.rs is not under src/, so
payload types are simplified to strings/options; only the variant tag is
inspected by the embedded code paths (the auth gate). -/
inductive Command where
  | User (username : String)
  | Pass (password : String)
  | Syst
  | Stat (path : Option String)
  | Acct (account : String)
  | Type
  | Stru (structure_code : String)
  | Mode (mode_code : String)
  | Help
  | Noop
  | Pasv
  | Port
  | Retr (path : String)
  | Stor (path : String)
  | List (path : Option String)
  | Nlst (path : Option String)
  | Feat
  | Pwd
  | Cwd (path : String)
  | Cdup
  | Opts (option : String)
  | Dele (path : String)
  | Rmd (path : String)
  | Quit
  | Mkd (path : String)
  | Allo
  | Abor
  | Stou
  | Rnfr (file : String)
  | Rnto (file : String)
  | Auth (protocol : String)
  | PBSZ
  | CCC
  | PROT (param : String)
  | SIZE (file : String)
  | Rest (offset : Nat)
  | MDTM (file : String)
  deriving DecidableEq, Repr

/-- An event on the session's internal bus: a decoded command or an internal
message (src/server/ftpserver.rs, enum Event usage). -/
inductive Event where
  | Command (cmd : Command)
  | InternalMsg (msg : InternalMsg)
  deriving DecidableEq, Repr

/-- The exemption pattern of Server::handle_with_auth
(src/server/ftpserver.rs lines 639-647): internal messages and the commands
Help, User, Pass, Auth, Feat, Quit bypass the auth check. -/
def isAuthExempt : Event → Bool
  | .InternalMsg _ => true
  | .Command .Help => true
  | .Command (.User _) => true
  | .Command (.Pass _) => true
  | .Command (.Auth _) => true
  | .Command .Feat => true
  | .Command .Quit => true
  | _ => false

/-- Server::handle_with_auth, src/server/ftpserver.rs lines 635-663.  The
shared session becomes an explicit argument threaded to the next handler; the
gate itself only reads session.state and, when it short-circuits, returns the
session unchanged, exactly as the source only locks and reads. -/
def handle_with_auth
    (next : Event → Session → Except ControlChanErrorKind Reply × Session)
    (event : Event) (session : Session) :
    Except ControlChanErrorKind Reply × Session :=
  if isAuthExempt event then next event session
  else if session.state ≠ SessionState.WaitCmd then
    (Except.ok (Reply.codeAndMsg .NotLoggedIn "Please authenticate"), session)
  else next event session

/-- The possible outcomes of the PROXY-mode PASV reply path: an internal
CommandChannelReply was sent to the session, nothing was sent (no connection
info or no internal sender), or the code panicked. -/
inductive PasvOutcome where
  | sent (code : ReplyCode) (message : String)
  | noReply
  | panicked (msg : String)
  deriving DecidableEq, Repr

/-- Server::select_and_register_passive_port, src/server/ftpserver.rs lines
436-468, after the switchboard reserved `port` (reserve_next_free_port lives
in proxy_protocol.rs, outside src/, so the reserved port is an argument).
The source computes p1 = port >> 8 and p2 = port - p1 * 256, then formats the
227 text from the octets of the session's control_connection_info.from_ip,
panicking on an IPv6 address; the configured external_ip is never read. -/
def select_and_register_passive_port (port : Nat) (session : Session) : PasvOutcome :=
  let p1 := port >>> 8
  let p2 := port - p1 * 256
  match session.control_connection_info with
  | Option.none => .noReply
  | Option.some conn =>
    match conn.from_ip with
    | .v6 => .panicked "Won't happen."
    | .v4 o0 o1 o2 o3 =>
      match session.control_msg_tx with
      | Option.none => .noReply
      | Option.some _ =>
        .sent .EnteringPassiveMode
          ("Entering Passive Mode (" ++ toString o0 ++ "," ++ toString o1 ++ ","
            ++ toString o2 ++ "," ++ toString o3 ++ "," ++ toString p1 ++ ","
            ++ toString p2 ++ ")")

/-- The spec's words for the PROXY-mode 227 text (spec sections 4.3 and 8,
scenario 6): the advertised host is the configured external_ip, the port
digits encode the reserved port.  This definition follows the spec, to be
compared with select_and_register_passive_port. -/
def pasvSpecMessage (external_ip : IpAddr) (port : Nat) : Option String :=
  match external_ip with
  | .v6 => Option.none
  | .v4 o0 o1 o2 o3 =>
    Option.some ("Entering Passive Mode (" ++ toString o0 ++ "," ++ toString o1 ++ ","
      ++ toString o2 ++ "," ++ toString o3 ++ "," ++ toString (port >>> 8) ++ ","
      ++ toString (port - (port >>> 8) * 256) ++ ")")

/-- A session at its initial state (spec section 3: cwd starts at `/`),
used as concrete input for witnesses and counterexamples. -/
def session0 : Session :=
  { state := .Start
  , cwd := "/"
  , start_pos := 0
  , cmd_tls := false
  , data_abort_tx := Option.none
  , control_msg_tx := Option.none
  , control_connection_info := Option.none }

/-- A PROXY-mode session as in spec scenario 6: the client behind the proxy
has source address 10.0.0.5, the configured external control port is 2121,
and the internal sender is present. -/
def sessionProxy : Session :=
  { session0 with
    control_msg_tx := Option.some ()
  , control_connection_info :=
      Option.some { from_ip := .v4 10 0 0 5, from_port := 12345
                  , to_ip := .v4 10 0 0 1, to_port := 2121 } }

/-- The external_ip of spec scenario 6 (10.0.0.1).  In the source this is
ProxyParams.external_ip, marked #[allow(dead_code)] and never read. -/
def externalIp0 : IpAddr := .v4 10 0 0 1

/-- A stub continuation handler, used as concrete input for the auth gate
witness. -/
def nextStub : Event → Session → Except ControlChanErrorKind Reply × Session :=
  fun _ session => (Except.ok (Reply.codeAndMsg .CommandOkay "OK"), session)

/-- Claim C2: the auth gate passes through Help, User, Pass, Auth, Feat, Quit
and every internal message unconditionally; for any other command, if the
session state is not WaitCmd, it replies 530 "Please authenticate" without
calling the next handler (the result is the same for every next) and without
mutating any session state (the session is returned unchanged). -/
theorem auth_gate_spec :
    (∀ next event session, isAuthExempt event = true →
        handle_with_auth next event session = next event session)
  ∧ (∀ next event session, isAuthExempt event = false →
        session.state ≠ SessionState.WaitCmd →
        handle_with_auth next event session
          = (Except.ok (Reply.codeAndMsg .NotLoggedIn "Please authenticate"), session))
  ∧ (∀ msg, isAuthExempt (Event.InternalMsg msg) = true)
  ∧ isAuthExempt (Event.Command Command.Help) = true
  ∧ (∀ u, isAuthExempt (Event.Command (Command.User u)) = true)
  ∧ (∀ p, isAuthExempt (Event.Command (Command.Pass p)) = true)
  ∧ (∀ p, isAuthExempt (Event.Command (Command.Auth p)) = true)
  ∧ isAuthExempt (Event.Command Command.Feat) = true
  ∧ isAuthExempt (Event.Command Command.Quit) = true
  ∧ ReplyCode.NotLoggedIn.code = 530 := by
  refine ⟨?_, ?_, fun _ => rfl, rfl, fun _ => rfl, fun _ => rfl, fun _ => rfl, rfl, rfl, rfl⟩
  · intro next event session h
    simp [handle_with_auth, h]
  · intro next event session h hstate
    simp [handle_with_auth, h, hstate]

/-- Witness for Claim C2: a LIST command in the initial (Start) state is
short-circuited with 530 and leaves the session unchanged. -/
theorem auth_gate_spec_witness :
    handle_with_auth nextStub (Event.Command (Command.List Option.none)) session0
      = (Except.ok (Reply.codeAndMsg .NotLoggedIn "Please authenticate"), session0) :=
  auth_gate_spec.2.1 nextStub (Event.Command (Command.List Option.none)) session0 rfl (by decide)

/-- Claim C3 counterexample: an IO error on the control channel is answered
with 451 (LocalError), not 421, and does not close the connection. -/
theorem io_error_does_not_close_connection :
    handle_control_channel_error ControlChanErrorKind.IOError
      = Reply.codeAndMsg .LocalError "Unknown internal server error, please try again later"
  ∧ (handle_control_channel_error ControlChanErrorKind.IOError).codeNum ≠ Option.some 421
  ∧ closes_connection (handle_control_channel_error ControlChanErrorKind.IOError) = false :=
  ⟨rfl, by decide, rfl⟩

/-- Claim C3 (amended): parser errors are translated to a reply and the loop
continues; only the idle timeout is answered 421 and closes the connection
(the close decision holds exactly for ControlChannelTimeout); IO errors are
answered 451 and the loop continues. -/
theorem control_channel_error_policy :
    (∀ e, closes_connection (handle_control_channel_error e)
        = decide (e = ControlChanErrorKind.ControlChannelTimeout))
  ∧ handle_control_channel_error .ControlChannelTimeout
      = Reply.codeAndMsg .ClosingControlConnection "Session timed out. Closing control connection"
  ∧ ReplyCode.ClosingControlConnection.code = 421
  ∧ (∀ s, closes_connection (handle_control_channel_error (ControlChanErrorKind.UnknownCommand s)) = false)
  ∧ closes_connection (handle_control_channel_error .InvalidCommand) = false
  ∧ closes_connection (handle_control_channel_error .UTF8Error) = false
  ∧ handle_control_channel_error .IOError
      = Reply.codeAndMsg .LocalError "Unknown internal server error, please try again later"
  ∧ ReplyCode.LocalError.code = 451 := by
  refine ⟨fun e => ?_, rfl, rfl, fun _ => rfl, rfl, rfl, rfl, rfl⟩
  cases e <;> rfl

/-- Claim C4 counterexample: a parse error of kind InvalidUTF8 is converted to
UTF8Error and answered 500 "Invalid UTF8 in command", not 501 "Invalid UTF8". -/
theorem invalid_utf8_maps_to_500 :
    handle_control_channel_error (from_parse_error ParseErrorKind.InvalidUTF8)
      = Reply.codeAndMsg .CommandSyntaxError "Invalid UTF8 in command"
  ∧ (handle_control_channel_error (from_parse_error ParseErrorKind.InvalidUTF8)).codeNum
      ≠ Option.some 501
  ∧ handle_control_channel_error (from_parse_error ParseErrorKind.InvalidUTF8)
      ≠ Reply.codeAndMsg .ParameterSyntaxError "Invalid UTF8" :=
  ⟨rfl, by decide, by decide⟩

/-- Claim C4 (amended): through the From(ParseError) conversion and the error
handler, UnknownCommand is answered 500 "Command not implemented",
InvalidCommand 501 "Invalid Parameter", and InvalidUTF8 500
"Invalid UTF8 in command". -/
theorem parse_error_reply_mapping :
    (∀ s, handle_control_channel_error (from_parse_error (ParseErrorKind.UnknownCommand s))
        = Reply.codeAndMsg .CommandSyntaxError "Command not implemented")
  ∧ handle_control_channel_error (from_parse_error ParseErrorKind.InvalidCommand)
      = Reply.codeAndMsg .ParameterSyntaxError "Invalid Parameter"
  ∧ handle_control_channel_error (from_parse_error ParseErrorKind.InvalidUTF8)
      = Reply.codeAndMsg .CommandSyntaxError "Invalid UTF8 in command"
  ∧ ReplyCode.CommandSyntaxError.code = 500
  ∧ ReplyCode.ParameterSyntaxError.code = 501 :=
  ⟨fun _ => rfl, rfl, rfl, rfl, rfl⟩

/-- Claim C5: PWD wraps the cwd in double quotes but does not double embedded
double-quote characters, diverging from the spec's mandated escaping at the
cwd /a"b (the source carries a TODO admitting the missing escaping). -/
theorem pwd_reply_no_quote_doubling :
    pwd_execute { session0 with cwd := "/a\"b" }
      = Reply.codeAndMsg .DirCreated "\"/a\"b\""
  ∧ pwdReplySpec "/a\"b" = Reply.codeAndMsg .DirCreated "\"/a\"\"b\""
  ∧ pwd_execute { session0 with cwd := "/a\"b" } ≠ pwdReplySpec "/a\"b"
  ∧ ReplyCode.DirCreated.code = 257 :=
  ⟨rfl, by decide, by decide, rfl⟩

/-- Claim C6: every storage error delivered as an internal message is answered
with exactly the numeric code of the spec's section 7 table: 450, 550, 550,
451, 551, 452, 552, 553 respectively. -/
theorem storage_error_reply_codes (session : Session) :
    (handle_internal_msg (.StorageError .TransientFileNotAvailable) session).1.codeNum = Option.some 450
  ∧ (handle_internal_msg (.StorageError .PermanentFileNotAvailable) session).1.codeNum = Option.some 550
  ∧ (handle_internal_msg (.StorageError .PermissionDenied) session).1.codeNum = Option.some 550
  ∧ (handle_internal_msg (.StorageError .LocalError) session).1.codeNum = Option.some 451
  ∧ (handle_internal_msg (.StorageError .PageTypeUnknown) session).1.codeNum = Option.some 551
  ∧ (handle_internal_msg (.StorageError .InsufficientStorageSpaceError) session).1.codeNum = Option.some 452
  ∧ (handle_internal_msg (.StorageError .ExceededStorageAllocationError) session).1.codeNum = Option.some 552
  ∧ (handle_internal_msg (.StorageError .FileNameNotAllowedError) session).1.codeNum = Option.some 553 :=
  ⟨rfl, rfl, rfl, rfl, rfl, rfl, rfl, rfl⟩

/-- Claim C7: ABOR replies 226 whether or not a transfer is active, the abort
signal is sent exactly when a data-abort sender is present, and a second
consecutive ABOR is also answered 226. -/
theorem abor_always_replies_226 (session : Session) :
    (abor_handle session).1.codeNum = Option.some 226
  ∧ (abor_handle (abor_handle session).2.1).1.codeNum = Option.some 226
  ∧ (abor_handle session).2.2 = session.data_abort_tx.isSome := by
  cases h : session.data_abort_tx <;>
    simp [abor_handle, h, Reply.codeNum, ReplyCode.code]

/-- Claim C8: on SendData and WrittenData the session's restart offset is
reset to 0, and the final reply is 226. -/
theorem transfer_completion_resets_start_pos (session : Session) :
    (handle_internal_msg .SendData session).2.start_pos = 0
  ∧ (handle_internal_msg .WrittenData session).2.start_pos = 0
  ∧ (handle_internal_msg .SendData session).1.codeNum = Option.some 226
  ∧ (handle_internal_msg .WrittenData session).1.codeNum = Option.some 226 :=
  ⟨rfl, rfl, rfl, rfl⟩

/-- Claim C9: the PROXY-mode PASV reply path panics exactly when the session's
recorded source address is IPv6; under the IPv4 precondition the panic branch
is unreachable. -/
theorem proxy_pasv_panic_iff_ipv6 (port : Nat) (session : Session) (conn : ConnectionTuple)
    (h : session.control_connection_info = Option.some conn) :
    (conn.from_ip.isV4 = true →
        select_and_register_passive_port port session ≠ PasvOutcome.panicked "Won't happen.")
  ∧ (conn.from_ip.isV4 = false →
        select_and_register_passive_port port session = PasvOutcome.panicked "Won't happen.") := by
  cases hip : conn.from_ip with
  | v4 o0 o1 o2 o3 =>
    refine ⟨fun _ => ?_, fun hv6 => ?_⟩
    · cases htx : session.control_msg_tx <;>
        simp [select_and_register_passive_port, h, hip, htx]
    · simp [IpAddr.isV4, hip] at hv6
  | v6 =>
    refine ⟨fun hv4 => ?_, fun _ => ?_⟩
    · simp [IpAddr.isV4, hip] at hv4
    · simp [select_and_register_passive_port, h, hip]

/-- Witness for Claim C9: the concrete PROXY session with IPv4 source
10.0.0.5 does not reach the panic branch. -/
theorem proxy_pasv_panic_iff_ipv6_witness :
    select_and_register_passive_port 50000 sessionProxy ≠ PasvOutcome.panicked "Won't happen." :=
  (proxy_pasv_panic_iff_ipv6 50000 sessionProxy
      { from_ip := .v4 10 0 0 5, from_port := 12345, to_ip := .v4 10 0 0 1, to_port := 2121 }
      rfl).1 rfl

/-- Claim C10: every execution of the ABOR handler leaves the session with no
data-abort sender, so a subsequent ABOR takes the no-transfer branch and
signals nothing. -/
theorem abor_clears_data_abort_sender (session : Session) :
    (abor_handle session).2.1.data_abort_tx = Option.none
  ∧ (abor_handle (abor_handle session).2.1).2.2 = false := by
  cases h : session.data_abort_tx <;> simp [abor_handle, h]

/-- Claim C1: at the failing input (PROXY session with source 10.0.0.5,
configured external_ip 10.0.0.1, reserved port 50000) the deferred 227 reply
advertises the session's source IP 10.0.0.5, not the configured external_ip;
the port digits do satisfy p1*256 + p2 = reserved port. -/
theorem proxy_pasv_reply_uses_source_ip :
    select_and_register_passive_port 50000 sessionProxy
      = PasvOutcome.sent .EnteringPassiveMode "Entering Passive Mode (10,0,0,5,195,80)"
  ∧ handle_internal_msg
        (.CommandChannelReply .EnteringPassiveMode "Entering Passive Mode (10,0,0,5,195,80)")
        sessionProxy
      = (Reply.codeAndMsg .EnteringPassiveMode "Entering Passive Mode (10,0,0,5,195,80)", sessionProxy)
  ∧ pasvSpecMessage externalIp0 50000 = Option.some "Entering Passive Mode (10,0,0,1,195,80)"
  ∧ Option.some "Entering Passive Mode (10,0,0,5,195,80)" ≠ pasvSpecMessage externalIp0 50000
  ∧ (∀ port : Nat, (port >>> 8) * 256 + (port - (port >>> 8) * 256) = port)
  ∧ ReplyCode.EnteringPassiveMode.code = 227 := by
  refine ⟨rfl, rfl, rfl, by decide, fun port => ?_, rfl⟩
  have hle : port >>> 8 * 256 ≤ port := by
    have h2 : port >>> 8 = port / 2 ^ 8 := Nat.shiftRight_eq_div_pow port 8
    rw [h2]
    exact Nat.div_mul_le_self port 256
  omega

end LibUnftp
